import Mathlib

/-!
Verification of the biochar estimation tool (`src/app.py`).

The source is a single Streamlit script.  Its computational core is:
  * a fixed feedstock catalog `FEEDSTOCK_DATA`;
  * an area resolver with a direct-hectares branch and a polygon branch
    (coordinates parsed from text, geodesic area via pyproj, absolute value);
  * an incomplete-input guard on the calculate button;
  * a pure arithmetic chain producing pile area, volume, biomass, biochar
    and an application rate, plus a soft advisory when the rate exceeds
    10000 kg/ha.

All arithmetic is embedded over `ℚ` (the spec mandates exact arithmetic;
the Python source performs the same operations on IEEE doubles).  The
geodesic area kernel lives in the external pyproj library, so the polygon
resolver is parameterised by an arbitrary signed-area function; everything
the source itself does (parsing, vertex-count validation, taking the
absolute value) is embedded concretely.
-/

/-- A feedstock catalog entry, mirroring the dicts of `FEEDSTOCK_DATA`
in `src/app.py` lines 8-21. -/
structure FeedstockProfile where
  density : ℚ
  yield_factor : ℚ
  default_height : ℚ
  coverage_fraction : ℚ
deriving DecidableEq

/-- The fixed catalog `FEEDSTOCK_DATA` of `src/app.py` lines 8-21,
as an association list from feedstock name to profile. -/
def FEEDSTOCK_DATA : List (String × FeedstockProfile) :=
  [ ("Rice husk", ⟨96, 0.25, 0.2, 0.08⟩),
    ("Wood chips", ⟨208, 0.30, 0.3, 0.04⟩),
    ("Corn cobs", ⟨190, 0.28, 0.25, 0.05⟩),
    ("Coconut shells", ⟨220, 0.35, 0.3, 0.03⟩),
    ("Bamboo", ⟨180, 0.33, 0.25, 0.05⟩),
    ("Sugarcane bagasse", ⟨140, 0.22, 0.2, 0.10⟩),
    ("Groundnut shells", ⟨130, 0.26, 0.2, 0.07⟩),
    ("Sludge", ⟨110, 0.50, 0.15, 0.06⟩),
    ("Maize stalks", ⟨120, 0.28, 0.25, 0.07⟩),
    ("Cotton stalks", ⟨150, 0.30, 0.25, 0.06⟩),
    ("Palm kernel shells", ⟨200, 0.32, 0.3, 0.04⟩),
    ("Other", ⟨160, 0.27, 0.25, 0.05⟩) ]

/-- Catalog lookup, mirroring `FEEDSTOCK_DATA[feedstock_type]`
(`src/app.py` line 44): the profile stored under a name, if any. -/
def lookupFeedstock (name : String) : Option FeedstockProfile :=
  (FEEDSTOCK_DATA.find? (fun p => p.1 == name)).map Prod.snd

/-- The profile stored under "Rice husk" in the catalog. -/
def riceHusk : FeedstockProfile := ⟨96, 0.25, 0.2, 0.08⟩

/-- Errors of the polygon area branch (`src/app.py` lines 55-67):
fewer than 3 parsed vertices triggers the `st.info` re-prompt, and any
exception while parsing or unpacking coordinates triggers the
`st.warning` about invalid coordinate format. -/
inductive AreaError where
  | InsufficientVertices
  | InvalidCoordinateFormat
deriving DecidableEq

/-- The direct-hectares branch (`src/app.py` lines 51-53):
`area_m2 = hectares * 10000`. -/
def resolveDirect (hectares : ℚ) : ℚ := hectares * 10000

/-- One line of coordinate text after `re.split` and `float` conversion:
each token either parsed to a number (`some q`) or raises (`none`).
`parseLine` mirrors `tuple(map(float, ...))` on one line: it succeeds
with the list of numbers iff every token parses. -/
def parseLine : List (Option ℚ) → Option (List ℚ)
  | [] => some []
  | none :: _ => none
  | some q :: ts => (parseLine ts).map (q :: ·)

/-- The whole comprehension of `src/app.py` line 58: every non-empty
line is converted in order, and the first token that fails to parse
aborts the whole list (the raised exception). -/
def parseLines : List (List (Option ℚ)) → Option (List (List ℚ))
  | [] => some []
  | l :: ls =>
    match parseLine l with
    | none => none
    | some tl => (parseLines ls).map (tl :: ·)

/-- Unpacking one parsed tuple as `for lat, lon in coords`
(`src/app.py` line 60): succeeds only on tuples of exactly two fields. -/
def toPair : List ℚ → Option (ℚ × ℚ)
  | [a, b] => some (a, b)
  | _ => none

/-- Unpacking every parsed tuple, aborting at the first tuple whose
field count is not two (the raised `ValueError` of line 60). -/
def toPairs : List (List ℚ) → Option (List (ℚ × ℚ))
  | [] => some []
  | t :: ts =>
    match toPair t with
    | none => none
    | some p => (toPairs ts).map (p :: ·)

/-- The parsing and validation phases of the polygon branch
(`src/app.py` lines 57-67), in source order: first the comprehension
converts every token of every line with `float` (an unparsable token
raises, caught as the invalid-format warning); then `len(coords) >= 3`
is checked (failure is the at-least-3-points prompt); then each tuple is
unpacked to a `(lat, lon)` pair (a wrong field count raises, caught by
the same `except` as the invalid-format warning). -/
def parseCoords (lines : List (List (Option ℚ))) :
    Except AreaError (List (ℚ × ℚ)) :=
  match parseLines lines with
  | none => .error .InvalidCoordinateFormat
  | some tuples =>
    if tuples.length ≥ 3 then
      match toPairs tuples with
      | none => .error .InvalidCoordinateFormat
      | some coords => .ok coords
    else .error .InsufficientVertices

/-- The polygon branch of the resolver (`src/app.py` lines 55-67).
`geodArea` stands for the signed area returned by
`geod.polygon_area_perimeter` of the external pyproj library (WGS84
ellipsoid); the source takes its absolute value (line 62). -/
def resolvePolygon (geodArea : List (ℚ × ℚ) → ℚ)
    (lines : List (List (Option ℚ))) : Except AreaError ℚ :=
  (parseCoords lines).map (fun coords => |geodArea coords|)

/-- Modelled from the spec: the Image (pixel-count) area modality is not
present in `src/app.py` (which offers only the Direct and Polygon
methods); it exists in other variants of this repository.  Per the spec:
`areaM2 = (widthPx × metersPerPixel) × (heightPx × metersPerPixel)`. -/
def resolveImage (widthPx heightPx : ℕ) (metersPerPixel : ℚ) : ℚ :=
  ((widthPx : ℚ) * metersPerPixel) * ((heightPx : ℚ) * metersPerPixel)

/-- The result record assembled in the calculate block
(`src/app.py` lines 83-96), including whether the >10 t/ha advisory
warning is shown (line 95). -/
structure EstimationResult where
  pile_area_m2 : ℚ
  volume_m3 : ℚ
  biomass_kg : ℚ
  biochar_kg : ℚ
  application_rate_kg_per_ha : ℚ
  advisory : Bool
deriving DecidableEq

/-- The arithmetic chain of the calculate block (`src/app.py` lines
83-96), in source order:
`area_ha = area_m2 / 10000`, `pile_area_m2 = area_m2 * coverage_fraction`,
`volume_m3 = pile_area_m2 * height_m`, `biomass_kg = volume_m3 * density`,
`biochar_kg = biomass_kg * yield_factor`,
`application_rate = biochar_kg / area_ha if area_ha > 0 else 0`,
and the advisory flag `application_rate_kg_per_ha > 10000`. -/
def calculate (f : FeedstockProfile) (area_m2 height_m : ℚ) :
    EstimationResult :=
  let area_ha := area_m2 / 10000
  let pile_area_m2 := area_m2 * f.coverage_fraction
  let volume_m3 := pile_area_m2 * height_m
  let biomass_kg := volume_m3 * f.density
  let biochar_kg := biomass_kg * f.yield_factor
  let application_rate_kg_per_ha :=
    if area_ha > 0 then biochar_kg / area_ha else 0
  ⟨pile_area_m2, volume_m3, biomass_kg, biochar_kg,
    application_rate_kg_per_ha,
    decide (application_rate_kg_per_ha > 10000)⟩

/-- Python truthiness of the `area_m2` variable at the guard
(`src/app.py` line 76): `not area_m2` is true when the area is still
`None` (no branch resolved it) or resolved to exactly `0.0`. -/
def areaFalsy : Option ℚ → Bool
  | none => true
  | some a => a == 0

/-- The calculate-button body (`src/app.py` lines 75-96): if
`not area_m2 or height_m <= 0` the user is asked to complete the inputs
and nothing is computed (`none`); otherwise the calculation runs. -/
def showEstimate (f : FeedstockProfile) (area_m2 : Option ℚ)
    (height_m : ℚ) : Option EstimationResult :=
  if areaFalsy area_m2 || height_m ≤ 0 then none
  else match area_m2 with
    | none => none
    | some a => some (calculate f a height_m)

/-- The record invariants of a feedstock profile claimed by the spec:
positive density, yield factor strictly between 0 and 1, positive
default height, coverage fraction in (0, 1]. -/
def profileOK (f : FeedstockProfile) : Prop :=
  0 < f.density ∧ 0 < f.yield_factor ∧ f.yield_factor < 1 ∧
    0 < f.default_height ∧ 0 < f.coverage_fraction ∧ f.coverage_fraction ≤ 1

instance (f : FeedstockProfile) : Decidable (profileOK f) := by
  unfold profileOK; infer_instance

/-! ### Helper lemmas shared by the claim theorems -/

lemma calculate_pile (f : FeedstockProfile) (a h : ℚ) :
    (calculate f a h).pile_area_m2 = a * f.coverage_fraction := rfl

lemma calculate_volume (f : FeedstockProfile) (a h : ℚ) :
    (calculate f a h).volume_m3 = a * f.coverage_fraction * h := rfl

lemma calculate_biomass (f : FeedstockProfile) (a h : ℚ) :
    (calculate f a h).biomass_kg = a * f.coverage_fraction * h * f.density := rfl

lemma calculate_biochar (f : FeedstockProfile) (a h : ℚ) :
    (calculate f a h).biochar_kg =
      a * f.coverage_fraction * h * f.density * f.yield_factor := rfl

lemma calculate_rate (f : FeedstockProfile) (a h : ℚ) :
    (calculate f a h).application_rate_kg_per_ha =
      if a / 10000 > 0 then
        a * f.coverage_fraction * h * f.density * f.yield_factor / (a / 10000)
      else 0 := rfl

lemma calculate_advisory (f : FeedstockProfile) (a h : ℚ) :
    (calculate f a h).advisory =
      decide ((calculate f a h).application_rate_kg_per_ha > 10000) := rfl

lemma catalog_profiles_OK : ∀ p ∈ FEEDSTOCK_DATA, profileOK p.2 := by
  intro p hp
  fin_cases hp <;> norm_num [profileOK]

lemma showEstimate_run (f : FeedstockProfile) (a h : ℚ)
    (ha : 0 < a) (hh : 0 < h) :
    showEstimate f (some a) h = some (calculate f a h) := by
  unfold showEstimate areaFalsy
  simp [ha.ne', not_le.mpr hh]

/-! ### Claim theorems -/

/-- C1: For the catalog's "Rice husk" entry (density 96, yieldFactor 0.25,
coverageFraction 0.08), with areaM2 = 10000 and heightM = 0.2, the chain
computes pileAreaM2 = 800, volumeM3 = 160, biomassKg = 15360,
biocharKg = 3840 and applicationRateKgPerHa = 3840, the rate being
biocharKg divided by the gross area in hectares (areaM2/10000), and the
>10 t/ha advisory is not raised. -/
theorem riceHusk_coverage_scenario :
    lookupFeedstock "Rice husk" = some riceHusk ∧
    riceHusk.density = 96 ∧ riceHusk.yield_factor = 0.25 ∧
    riceHusk.coverage_fraction = 0.08 ∧
    (calculate riceHusk 10000 0.2).pile_area_m2 = 800 ∧
    (calculate riceHusk 10000 0.2).volume_m3 = 160 ∧
    (calculate riceHusk 10000 0.2).biomass_kg = 15360 ∧
    (calculate riceHusk 10000 0.2).biochar_kg = 3840 ∧
    (calculate riceHusk 10000 0.2).application_rate_kg_per_ha =
      (calculate riceHusk 10000 0.2).biochar_kg / (10000 / 10000) ∧
    (calculate riceHusk 10000 0.2).application_rate_kg_per_ha = 3840 ∧
    (calculate riceHusk 10000 0.2).advisory = false := by
  refine ⟨rfl, rfl, rfl, rfl, ?_, ?_, ?_, ?_, ?_, ?_, ?_⟩
  · rw [calculate_pile]; norm_num [riceHusk]
  · rw [calculate_volume]; norm_num [riceHusk]
  · rw [calculate_biomass]; norm_num [riceHusk]
  · rw [calculate_biochar]; norm_num [riceHusk]
  · rw [calculate_rate, calculate_biochar]; norm_num [riceHusk]
  · rw [calculate_rate]; norm_num [riceHusk]
  · rw [calculate_advisory, calculate_rate]
    simp only [decide_eq_false_iff_not]
    norm_num [riceHusk]

/-- C2: for every hectares ≥ 0, the Direct branch resolves to exactly
hectares × 10000 square meters, with no failure mode. -/
theorem resolveDirect_exact (hectares : ℚ) (hnn : 0 ≤ hectares) :
    resolveDirect hectares = hectares * 10000 := rfl

/-- Witness for C2 at hectares = 2.5. -/
theorem resolveDirect_exact_witness :
    (0:ℚ) ≤ 2.5 ∧ resolveDirect 2.5 = 25000 :=
  ⟨by norm_num, (resolveDirect_exact 2.5 (by norm_num)).trans (by norm_num)⟩

/-- C7: (modelled from the spec, the Image modality being in variants of
the repository outside `src/app.py`) for positive pixel dimensions and
resolution, the Image branch resolves
areaM2 = (widthPx × metersPerPixel) × (heightPx × metersPerPixel); at
1000 × 800 px and 10 m/px that is exactly 80,000,000 m². -/
theorem resolveImage_formula (w h : ℕ) (mpp : ℚ)
    (hw : 0 < w) (hh : 0 < h) (hm : 0 < mpp) :
    resolveImage w h mpp = ((w:ℚ) * mpp) * ((h:ℚ) * mpp) ∧
    resolveImage 1000 800 10 = 80000000 :=
  ⟨rfl, by norm_num [resolveImage]⟩

/-- Witness for C7 at widthPx = 1000, heightPx = 800, 10 m/px. -/
theorem resolveImage_formula_witness :
    resolveImage 1000 800 10 = (((1000:ℕ):ℚ) * 10) * (((800:ℕ):ℚ) * 10) ∧
    resolveImage 1000 800 10 = 80000000 :=
  resolveImage_formula 1000 800 10 (by norm_num) (by norm_num) (by norm_num)

/-- C9: every entry of the fixed catalog satisfies the FeedstockProfile
invariants: density > 0, yieldFactor strictly between 0 and 1,
defaultHeight > 0, and coverageFraction present with
0 < coverageFraction ≤ 1.  (The catalog is a constant of the embedding,
as `FEEDSTOCK_DATA` is only ever read in the source.) -/
theorem catalog_invariants : ∀ p ∈ FEEDSTOCK_DATA, profileOK p.2 :=
  catalog_profiles_OK

/-- Witness for C9 at the "Rice husk" entry. -/
theorem catalog_invariants_witness : profileOK riceHusk :=
  catalog_invariants ("Rice husk", riceHusk) (List.mem_cons_self _ _)

/-- C3: for any area the resolver could have produced (missing, or a
non-negative number), the calculate button computes nothing exactly when
the area is missing or ≤ 0 or the height is ≤ 0 — the caller shows the
incomplete-input prompt instead — and for any present positive area and
positive height the calculation proceeds. -/
theorem incomplete_input_guard (f : FeedstockProfile) (area : Option ℚ)
    (h : ℚ) (hres : ∀ a, area = some a → 0 ≤ a) :
    (showEstimate f area h = none ↔
      (area = none ∨ (∃ a, area = some a ∧ a ≤ 0) ∨ h ≤ 0)) ∧
    ∀ a, area = some a → 0 < a → 0 < h →
      showEstimate f area h = some (calculate f a h) := by
  constructor
  · cases area with
    | none => simp [showEstimate, areaFalsy]
    | some a =>
      have h0 := hres a rfl
      by_cases ha : a = 0
      · subst ha; simp [showEstimate, areaFalsy]
      · have ha' : 0 < a := lt_of_le_of_ne h0 (Ne.symm ha)
        by_cases hh : h ≤ 0
        · simp [showEstimate, areaFalsy, ha, hh]
        · simp only [showEstimate, areaFalsy, ha, hh]
          simp [ha, hh, ha']
  · intro a haeq hpa hph
    subst haeq
    exact showEstimate_run f a h hpa hph

/-- Witness for C3: a resolved area of 0 (or a missing one) blocks the
computation, a positive one lets it run. -/
theorem incomplete_input_guard_witness :
    showEstimate riceHusk (some 0) 1 = none ∧
    showEstimate riceHusk none 1 = none ∧
    showEstimate riceHusk (some 10000) 1 = some (calculate riceHusk 10000 1) := by
  refine ⟨?_, ?_, ?_⟩
  · exact (incomplete_input_guard riceHusk (some 0) 1
      (fun a ha => by injection ha with h2; exact h2 ▸ le_refl 0)).1.mpr
      (Or.inr (Or.inl ⟨0, rfl, le_refl 0⟩))
  · exact (incomplete_input_guard riceHusk none 1
      (fun a ha => by cases ha)).1.mpr (Or.inl rfl)
  · exact (incomplete_input_guard riceHusk (some 10000) 1
      (fun a ha => by injection ha with h2; rw [← h2]; norm_num)).2
      10000 rfl (by norm_num) (by norm_num)

/-- C8: when the guard passes, the computation returns its full result
whatever the rate, and the advisory flag is raised exactly when
applicationRateKgPerHa exceeds 10000 kg/ha. -/
theorem advisory_is_soft (f : FeedstockProfile) (a h : ℚ)
    (ha : 0 < a) (hh : 0 < h) :
    showEstimate f (some a) h = some (calculate f a h) ∧
    ((calculate f a h).advisory = true ↔
      10000 < (calculate f a h).application_rate_kg_per_ha) := by
  refine ⟨showEstimate_run f a h ha hh, ?_⟩
  rw [calculate_advisory]
  simp only [decide_eq_true_eq, gt_iff_lt]

/-- Witness for C8 at the Rice husk scenario of the spec. -/
theorem advisory_is_soft_witness :
    showEstimate riceHusk (some 10000) 0.2 = some (calculate riceHusk 10000 0.2) ∧
    ((calculate riceHusk 10000 0.2).advisory = true ↔
      10000 < (calculate riceHusk 10000 0.2).application_rate_kg_per_ha) :=
  advisory_is_soft riceHusk 10000 0.2 (by norm_num) (by norm_num)

/-- C5: for every catalog feedstock and every fixed gross area > 0,
raising the pile height strictly raises biomassKg, biocharKg and
applicationRateKgPerHa. -/
theorem estimate_monotone_height (p : String × FeedstockProfile)
    (hp : p ∈ FEEDSTOCK_DATA) (area h1 h2 : ℚ)
    (ha : 0 < area) (h01 : 0 < h1) (h12 : h1 < h2) :
    (calculate p.2 area h1).biomass_kg < (calculate p.2 area h2).biomass_kg ∧
    (calculate p.2 area h1).biochar_kg < (calculate p.2 area h2).biochar_kg ∧
    (calculate p.2 area h1).application_rate_kg_per_ha <
      (calculate p.2 area h2).application_rate_kg_per_ha := by
  obtain ⟨hd, hy0, hy1, hdh, hc0, hc1⟩ := catalog_profiles_OK p hp
  have hac : 0 < area * p.2.coverage_fraction := mul_pos ha hc0
  have hb : area * p.2.coverage_fraction * h1 * p.2.density <
      area * p.2.coverage_fraction * h2 * p.2.density :=
    mul_lt_mul_of_pos_right (mul_lt_mul_of_pos_left h12 hac) hd
  have hbc : area * p.2.coverage_fraction * h1 * p.2.density * p.2.yield_factor <
      area * p.2.coverage_fraction * h2 * p.2.density * p.2.yield_factor :=
    mul_lt_mul_of_pos_right hb hy0
  have hha : (0:ℚ) < area / 10000 := by positivity
  refine ⟨?_, ?_, ?_⟩
  · rw [calculate_biomass, calculate_biomass]; exact hb
  · rw [calculate_biochar, calculate_biochar]; exact hbc
  · rw [calculate_rate, calculate_rate, if_pos hha, if_pos hha]
    exact (div_lt_div_iff_of_pos_right hha).mpr hbc

/-- Witness for C5: Rice husk over one hectare, heights 0.1 m < 0.2 m. -/
theorem estimate_monotone_height_witness :
    (calculate riceHusk 10000 0.1).biomass_kg <
      (calculate riceHusk 10000 0.2).biomass_kg ∧
    (calculate riceHusk 10000 0.1).biochar_kg <
      (calculate riceHusk 10000 0.2).biochar_kg ∧
    (calculate riceHusk 10000 0.1).application_rate_kg_per_ha <
      (calculate riceHusk 10000 0.2).application_rate_kg_per_ha :=
  estimate_monotone_height ("Rice husk", riceHusk) (List.mem_cons_self _ _)
    10000 0.1 0.2 (by norm_num) (by norm_num) (by norm_num)

/-- C10: for every catalog feedstock and every non-negative area and
height, pileAreaM2, biomassKg, biocharKg and applicationRateKgPerHa are
non-negative, biocharKg never exceeds biomassKg, and is strictly below it
whenever biomassKg is positive. -/
theorem estimate_bounds (p : String × FeedstockProfile)
    (hp : p ∈ FEEDSTOCK_DATA) (area h : ℚ) (ha : 0 ≤ area) (hh : 0 ≤ h) :
    0 ≤ (calculate p.2 area h).pile_area_m2 ∧
    0 ≤ (calculate p.2 area h).biomass_kg ∧
    0 ≤ (calculate p.2 area h).biochar_kg ∧
    0 ≤ (calculate p.2 area h).application_rate_kg_per_ha ∧
    (calculate p.2 area h).biochar_kg ≤ (calculate p.2 area h).biomass_kg ∧
    (0 < (calculate p.2 area h).biomass_kg →
      (calculate p.2 area h).biochar_kg < (calculate p.2 area h).biomass_kg) := by
  obtain ⟨hd, hy0, hy1, hdh, hc0, hc1⟩ := catalog_profiles_OK p hp
  have hpile : 0 ≤ area * p.2.coverage_fraction := mul_nonneg ha hc0.le
  have hbm : 0 ≤ area * p.2.coverage_fraction * h * p.2.density :=
    mul_nonneg (mul_nonneg hpile hh) hd.le
  have hbc : 0 ≤ area * p.2.coverage_fraction * h * p.2.density * p.2.yield_factor :=
    mul_nonneg hbm hy0.le
  refine ⟨?_, ?_, ?_, ?_, ?_, ?_⟩
  · rw [calculate_pile]; exact hpile
  · rw [calculate_biomass]; exact hbm
  · rw [calculate_biochar]; exact hbc
  · rw [calculate_rate]
    split
    · next hpos => exact div_nonneg hbc (le_of_lt hpos)
    · exact le_refl 0
  · rw [calculate_biochar, calculate_biomass]
    exact mul_le_of_le_one_right hbm hy1.le
  · rw [calculate_biomass, calculate_biochar]
    intro hpos
    exact mul_lt_of_lt_one_right hpos hy1

/-- Witness for C10: Rice husk over one hectare at the default height. -/
theorem estimate_bounds_witness :
    0 ≤ (calculate riceHusk 10000 0.2).pile_area_m2 ∧
    0 ≤ (calculate riceHusk 10000 0.2).biomass_kg ∧
    0 ≤ (calculate riceHusk 10000 0.2).biochar_kg ∧
    0 ≤ (calculate riceHusk 10000 0.2).application_rate_kg_per_ha ∧
    (calculate riceHusk 10000 0.2).biochar_kg ≤
      (calculate riceHusk 10000 0.2).biomass_kg ∧
    (0 < (calculate riceHusk 10000 0.2).biomass_kg →
      (calculate riceHusk 10000 0.2).biochar_kg <
        (calculate riceHusk 10000 0.2).biomass_kg) :=
  estimate_bounds ("Rice husk", riceHusk) (List.mem_cons_self _ _)
    10000 0.2 (by norm_num) (by norm_num)

lemma parseLine_some (line : List (Option ℚ)) (h : ∀ t ∈ line, t ≠ none) :
    ∃ l, parseLine line = some l := by
  induction line with
  | nil => exact ⟨[], rfl⟩
  | cons t ts ih =>
    cases t with
    | none => exact absurd rfl (h none (List.mem_cons_self _ _))
    | some q =>
      obtain ⟨l, hl⟩ := ih (fun x hx => h x (List.mem_cons_of_mem _ hx))
      exact ⟨q :: l, by simp [parseLine, hl]⟩

lemma parseLine_none (line : List (Option ℚ)) (h : none ∈ line) :
    parseLine line = none := by
  induction line with
  | nil => cases h
  | cons t ts ih =>
    cases t with
    | none => rfl
    | some q =>
      have hts : none ∈ ts := by
        rcases List.mem_cons.mp h with h1 | h2
        · cases h1
        · exact h2
      simp [parseLine, ih hts]

lemma parseLines_some (lines : List (List (Option ℚ)))
    (h : ∀ l ∈ lines, ∀ t ∈ l, t ≠ none) :
    ∃ ts, parseLines lines = some ts ∧ ts.length = lines.length := by
  induction lines with
  | nil => exact ⟨[], rfl, rfl⟩
  | cons l ls ih =>
    obtain ⟨tl, htl⟩ := parseLine_some l (h l (List.mem_cons_self _ _))
    obtain ⟨ts, hts, hlen⟩ := ih (fun x hx => h x (List.mem_cons_of_mem _ hx))
    exact ⟨tl :: ts, by simp [parseLines, htl, hts], by simp [hlen]⟩

lemma parseLines_none (lines : List (List (Option ℚ)))
    (l0 : List (Option ℚ)) (hm : l0 ∈ lines) (hn : none ∈ l0) :
    parseLines lines = none := by
  induction lines with
  | nil => cases hm
  | cons l ls ih =>
    rcases List.mem_cons.mp hm with rfl | h2
    · simp [parseLines, parseLine_none l0 hn]
    · cases hpl : parseLine l with
      | none => simp [parseLines, hpl]
      | some tl => simp [parseLines, hpl, ih h2]

/-- C4: a polygon whose lines all parse but number fewer than 3 fails
with InsufficientVertices, and a polygon containing an unparsable
coordinate token fails with InvalidCoordinateFormat; both are returned
error values, not unhandled faults. -/
theorem polygon_validation (lines : List (List (Option ℚ))) :
    ((∀ l ∈ lines, ∀ t ∈ l, t ≠ none) → lines.length < 3 →
      parseCoords lines = .error .InsufficientVertices) ∧
    ((∃ l ∈ lines, none ∈ l) →
      parseCoords lines = .error .InvalidCoordinateFormat) := by
  constructor
  · intro hall hlen
    obtain ⟨ts, hts, hl⟩ := parseLines_some lines hall
    unfold parseCoords
    rw [hts]
    have : ¬ ts.length ≥ 3 := by omega
    simp [this]
  · rintro ⟨l0, hm, hn⟩
    unfold parseCoords
    rw [parseLines_none lines l0 hm hn]

/-- Witness for C4: two well-formed vertices are InsufficientVertices;
three vertices with one bad token are InvalidCoordinateFormat. -/
theorem polygon_validation_witness :
    parseCoords [[some 1, some 2], [some 3, some 4]] =
      .error .InsufficientVertices ∧
    parseCoords [[none, some 2], [some 3, some 4], [some 5, some 6]] =
      .error .InvalidCoordinateFormat :=
  ⟨(polygon_validation _).1 (by decide) (by decide),
   (polygon_validation _).2 ⟨[none, some 2], List.mem_cons_self _ _,
     List.mem_cons_self _ _⟩⟩

/-- C6: whenever the polygon parses (≥ 3 two-field numeric vertices),
the resolved area is exactly the absolute value of the signed geodesic
area the external library returns for those vertices, and is therefore
non-negative whatever that signed value is (in particular near-zero for
a near-degenerate triangle's near-zero signed area). -/
theorem polygon_area_abs (geodArea : List (ℚ × ℚ) → ℚ)
    (lines : List (List (Option ℚ))) (coords : List (ℚ × ℚ))
    (hok : parseCoords lines = .ok coords) :
    resolvePolygon geodArea lines = .ok |geodArea coords| ∧
    0 ≤ |geodArea coords| := by
  constructor
  · unfold resolvePolygon
    rw [hok]
    rfl
  · exact abs_nonneg _

/-- Witness for C6: a triangle for which the library is taken to return
a signed area of -7 resolves to +7. -/
theorem polygon_area_abs_witness :
    resolvePolygon (fun _ => (-7 : ℚ))
      [[some 1, some 2], [some 3, some 4], [some 5, some 6]] =
      .ok |(-7 : ℚ)| ∧ 0 ≤ |(-7 : ℚ)| :=
  polygon_area_abs (fun _ => (-7 : ℚ)) _ [(1, 2), (3, 4), (5, 6)] rfl
